import Mathlib

/-!
# Photobooth controller — verification of the orchestration layer

Shallow embedding of the photobooth repository's orchestration core:

* `controller/session_storage.py` — `SessionStorage` (deterministic on-disk layout)
* `controller/health.py` + usage in `controller/controller.py` — the sticky
  health model (`HealthStatus`, level/code/source enums)
* `controller/controller.py` — `PhotoboothController`: health setters,
  `_mark_camera_ok`, `_poll_camera_health_if_idle`, `_handle_command`,
  `_start_print_job`, `get_status`
* `controller/session_flow.py` — `SessionFlow`: `start_session`,
  `begin_photo_capture`, `_photo_capture_worker`, `_finish_session_worker`

Python paths are modelled as lists of segments, the filesystem as explicit
sets of directories and files, wall-clock time as rationals, and the external
collaborators (camera capture, strip composition, printer) as explicit
result parameters, exactly at the capability boundary the code calls them.
Exceptions are values of `PyExn`; a worker that lets an exception escape
returns it in its result.  `datetime`-valued `last_updated` on `HealthStatus`
is omitted (wall-clock metadata, read by no code under verification).
-/

namespace Photobooth

/-- A filesystem path, as the list of its segments (pathlib `Path` parts). -/
abbrev FsPath := List String

/-- `p / seg` — appending one segment to a path (pathlib `/` operator). -/
def FsPath.child (p : FsPath) (seg : String) : FsPath := p ++ [seg]

/-- Explicit filesystem state: the set of existing directories and regular
files, each identified by its path. -/
structure FS where
  dirs : List FsPath
  files : List FsPath
deriving DecidableEq

def FS.hasDir (fs : FS) (p : FsPath) : Prop := p ∈ fs.dirs

def FS.hasFile (fs : FS) (p : FsPath) : Prop := p ∈ fs.files

instance (fs : FS) (p : FsPath) : Decidable (fs.hasDir p) :=
  inferInstanceAs (Decidable (p ∈ fs.dirs))

instance (fs : FS) (p : FsPath) : Decidable (fs.hasFile p) :=
  inferInstanceAs (Decidable (p ∈ fs.files))

/-- All nonempty prefixes of a path: the chain of directories `mkdir
(parents := True)` brings into existence. -/
def FsPath.ancestors : FsPath → List FsPath
  | [] => []
  | seg :: rest => [seg] :: (FsPath.ancestors rest).map (fun p => seg :: p)

/-- `Path.mkdir(parents=True, exist_ok=False)`: fails iff the target itself
already exists (as a directory or as a file); otherwise creates the target
and any missing parents. -/
def FS.mkdirParents (fs : FS) (p : FsPath) : Except String FS :=
  if p ∈ fs.dirs ∨ p ∈ fs.files then .error "FileExistsError"
  else .ok { fs with dirs := p.ancestors ++ fs.dirs }

/-- Writing a regular file at `p` (`Image.save`), overwriting any previous
content. -/
def FS.writeFile (fs : FS) (p : FsPath) : FS :=
  if p ∈ fs.files then fs else { fs with files := p :: fs.files }

/-- A calendar date (`datetime.date`). -/
structure Date where
  year : Nat
  month : Nat
  day : Nat
deriving DecidableEq

/-- Left-pad a numeral string with zeros to width `w`. -/
def padZeros (w : Nat) (s : String) : String :=
  String.mk (List.replicate (w - s.length) '0') ++ s

/-- `date.isoformat()`: `YYYY-MM-DD` with zero padding. -/
def Date.isoformat (d : Date) : String :=
  padZeros 4 (toString d.year) ++ "-" ++ padZeros 2 (toString d.month)
    ++ "-" ++ padZeros 2 (toString d.day)

/-- `controller/session_storage.py` — frozen dataclass `SessionStorage`. -/
structure SessionStorage where
  root : FsPath
  session_id : String
  session_date : Date
deriving DecidableEq

/-- `SessionStorage.session_dir = root / date.isoformat() / f"session_{id}"`. -/
def SessionStorage.session_dir (s : SessionStorage) : FsPath :=
  (s.root.child s.session_date.isoformat).child ("session_" ++ s.session_id)

/-- `SessionStorage.photos_dir = session_dir / "photos"`. -/
def SessionStorage.photos_dir (s : SessionStorage) : FsPath :=
  s.session_dir.child "photos"

/-- `SessionStorage.strip_path = session_dir / "strip.jpg"`. -/
def SessionStorage.strip_path (s : SessionStorage) : FsPath :=
  s.session_dir.child "strip.jpg"

/-- The complete list of paths the `SessionStorage` class derives, one entry
per `@property` it defines (`session_dir`, `photos_dir`, `strip_path`).
The class defines no print-artifact path. -/
def SessionStorage.derivedPaths (s : SessionStorage) : List FsPath :=
  [s.session_dir, s.photos_dir, s.strip_path]

/-- `SessionStorage.prepare()`: `photos_dir.mkdir(parents=True, exist_ok=False)`. -/
def SessionStorage.prepare (s : SessionStorage) (fs : FS) : Except String FS :=
  fs.mkdirParents s.photos_dir

/-! ## Health model (`controller/health.py`)

The `health.py` snapshot in the repository defines `HealthLevel`,
`HealthStatus` and a three-member `HealthCode`; the additional codes
(`STRIP_CREATION_FAILED`, `PRINTER_FAILED`, `CONFIG_INVALID`) and the
`HealthSource` enum are taken from their uses in `controller/controller.py`
and `controller/session_flow.py` (and are asserted to exist by
`tests/controller/test_health_status.py`). -/

inductive HealthLevel where
  | OK
  | WARNING
  | ERROR
deriving DecidableEq

inductive HealthCode where
  | CAMERA_NOT_DETECTED
  | CAMERA_DISCONNECTED
  | UNKNOWN_ERROR
  | STRIP_CREATION_FAILED
  | PRINTER_FAILED
  | CONFIG_INVALID
deriving DecidableEq

inductive HealthSource where
  | CAPTURE
  | PROCESSING
  | PRINTER
  | CONFIG
deriving DecidableEq

/-- Frozen dataclass `HealthStatus` (the `last_updated` timestamp field is
omitted: wall-clock metadata never read by the code under verification). -/
structure HealthStatus where
  level : HealthLevel
  code : Option HealthCode := none
  message : Option String := none
  instructions : Option (List String) := none
  recoverable : Bool := true
deriving DecidableEq

/-- `HealthStatus.ok()`. -/
def HealthStatus.ok : HealthStatus := { level := .OK }

/-- `HealthStatus.error(code=…, message=…, instructions=…, recoverable=…)`. -/
def HealthStatus.error (code : HealthCode) (message : String)
    (instructions : List String) (recoverable : Bool := true) : HealthStatus :=
  { level := .ERROR, code := some code, message := some message,
    instructions := some instructions, recoverable := recoverable }

/-- The controller's health record: `_health_status` plus `_health_source`,
the pair guarded by `_health_lock`. -/
structure HealthState where
  status : HealthStatus
  source : Option HealthSource
deriving DecidableEq

/-- Health at controller construction: `HealthStatus.ok()` with no source. -/
def HealthState.init : HealthState := ⟨HealthStatus.ok, none⟩

/-- The instruction list hard-coded in `_set_camera_error`. -/
def cameraErrorInstructions : List String :=
  [ "Check that the camera is powered on",
    "Check the USB cable",
    "Replace the camera battery if needed" ]

/-- The instruction list hard-coded in `_set_processing_error`. -/
def processingErrorInstructions : List String :=
  [ "Please restart the photobooth",
    "Verify strip configuration and logo file",
    "Contact the operator if the problem persists" ]

/-- The instruction list hard-coded in `_set_printer_error`. -/
def printerErrorInstructions : List String :=
  [ "Check that the printer is powered on",
    "Check the USB cable",
    "Verify the CUPS queue is configured and online",
    "Check paper/ink and clear any jams" ]

/-- `PhotoboothController._set_camera_error` (health-lock body). -/
def HealthState.set_camera_error (h : HealthState) (code : HealthCode)
    (message : String) (source : HealthSource) : HealthState :=
  if h.status.level = .ERROR then h
  else
    { source := some source,
      status := HealthStatus.error code message cameraErrorInstructions }

/-- `PhotoboothController._set_processing_error` (health-lock body). -/
def HealthState.set_processing_error (h : HealthState) (message : String) :
    HealthState :=
  if h.status.level = .ERROR then h
  else
    { source := some .PROCESSING,
      status := HealthStatus.error .STRIP_CREATION_FAILED message
        processingErrorInstructions false }

/-- `PhotoboothController._set_printer_error` (health-lock body). -/
def HealthState.set_printer_error (h : HealthState) (message : String) :
    HealthState :=
  if h.status.level = .ERROR then h
  else
    { source := some .PRINTER,
      status := HealthStatus.error .PRINTER_FAILED message
        printerErrorInstructions }

/-- `PhotoboothController.set_config_error` (health-lock body). -/
def HealthState.set_config_error (h : HealthState) (message : String)
    (instructions : List String) : HealthState :=
  if h.status.level = .ERROR then h
  else
    { source := some .CONFIG,
      status := HealthStatus.error .CONFIG_INVALID message instructions }

/-- `PhotoboothController._mark_camera_ok`, health-lock body: refuses to
clear a CONFIG-sourced record, otherwise resets status and source
unconditionally. -/
def HealthState.mark_camera_ok (h : HealthState) : HealthState :=
  if h.source = some .CONFIG then h
  else ⟨HealthStatus.ok, none⟩

/-- The health-clearing step of `_poll_printer_health_if_idle`
(controller.py lines 377-380): clears the record only when the current
error is PRINTER-owned. -/
def HealthState.printer_recovery_clear (h : HealthState) : HealthState :=
  if h.source = some .PRINTER then ⟨HealthStatus.ok, none⟩ else h

/-! ## Controller state (`controller/controller.py`) -/

inductive ControllerState where
  | IDLE
  | READY_FOR_PHOTO
  | COUNTDOWN
  | CAPTURING_PHOTO
  | PROCESSING
  | PRINTING
deriving DecidableEq

inductive CommandType where
  | START_SESSION
  | TAKE_PHOTO
deriving DecidableEq

/-- A queued `Command`.  Payloads reaching the controller are JSON objects
with integer values (`web/app.py` builds `{print_count: int(...)}`;
tests pass integer `image_count`/`print_count`), modelled as association
lists. -/
structure Command where
  command_type : CommandType
  payload : List (String × Int) := []
deriving DecidableEq

/-- `payload.get(key, default)` on a dict with integer values. -/
def payloadGet (payload : List (String × Int)) (key : String)
    (defaultVal : Int) : Int :=
  (payload.lookup key).getD defaultVal

/-- A Python exception crossing a worker boundary: the domain-specific
`StripCreationError` (defined in `imaging/strip_errors.py`, raised by
`imaging/strip_renderer.py`) versus any other exception. -/
inductive PyExn where
  | stripCreationError (message : String)
  | otherError (message : String)
deriving DecidableEq

def PyExn.message : PyExn → String
  | .stripCreationError m => m
  | .otherError m => m

/-- Class constant `CAMERA_ERROR_AFTER = 2.5` (seconds). -/
def CAMERA_ERROR_AFTER : ℚ := 5 / 2

/-- Class constant `CAMERA_POLL_INTERVAL = 1.0` (seconds). -/
def CAMERA_POLL_INTERVAL : ℚ := 1

/-- Class constant `RECOVERY_ATTEMPT_INTERVAL = 2.0` (seconds). -/
def RECOVERY_ATTEMPT_INTERVAL : ℚ := 2

/-- Class constant `TOTAL_PHOTOS_PER_SESSION = 3`. -/
def TOTAL_PHOTOS_PER_SESSION : Int := 3

/-- Module constant `CAMERA_NOT_DETECTED = "Camera not detected"`. -/
def CAMERA_NOT_DETECTED_MSG : String := "Camera not detected"

/-- The mutable state of one `PhotoboothController` (locks elided: every
transition below is one lock-guarded critical section of the source,
executed atomically). -/
structure Controller where
  state : ControllerState
  total_photos : Int
  photos_taken : Nat
  print_count : Int
  session_active : Bool
  countdown_seconds : Int
  countdown_remaining : Int
  sessions_root : FsPath
  session_storage : Option SessionStorage
  captured_image_paths : List FsPath
  pending_print_path : Option FsPath
  pending_print_copies : Int
  print_in_flight : Bool
  health : HealthState
  camera_poll_last_attempt : ℚ
  camera_poll_fail_since : Option ℚ
deriving DecidableEq

/-- `PhotoboothController.__init__` (state-relevant fields). -/
def Controller.init (image_root : FsPath) : Controller where
  state := .IDLE
  total_photos := TOTAL_PHOTOS_PER_SESSION
  photos_taken := 0
  print_count := 1
  session_active := false
  countdown_seconds := 3
  countdown_remaining := 0
  sessions_root := image_root.child "sessions"
  session_storage := none
  captured_image_paths := []
  pending_print_path := none
  pending_print_copies := 0
  print_in_flight := false
  health := HealthState.init
  camera_poll_last_attempt := 0
  camera_poll_fail_since := none

/-- `PhotoboothController._mark_camera_ok`: the CONFIG guard returns from
the method before the poll-debounce fields are reset, so those resets
happen only on the clearing path. -/
def Controller.mark_camera_ok (c : Controller) : Controller :=
  if c.health.source = some .CONFIG then c
  else
    { c with health := ⟨HealthStatus.ok, none⟩,
             camera_poll_last_attempt := 0,
             camera_poll_fail_since := none }

def Controller.set_camera_error (c : Controller) (code : HealthCode)
    (message : String) (source : HealthSource) : Controller :=
  { c with health := c.health.set_camera_error code message source }

def Controller.set_processing_error (c : Controller) (message : String) :
    Controller :=
  { c with health := c.health.set_processing_error message }

def Controller.set_printer_error (c : Controller) (message : String) :
    Controller :=
  { c with health := c.health.set_printer_error message }

/-- Observable happenings of a worker run, used to state trace properties. -/
inductive Event where
  | entered (s : ControllerState)
  | print_job_started (path : FsPath) (copies : Int)
deriving DecidableEq

/-- `PhotoboothController._start_print_job` up to the point where the
print worker is spawned (the spawn is the `print_job_started` event);
`preflight` is the outcome of the capability's `preflight()` call. -/
def Controller.start_print_job (c : Controller) (print_path : FsPath)
    (copies : Int) (preflight : Except PyExn Unit) : Controller × List Event :=
  if copies < 1 then (c, [])
  else
    let c := { c with pending_print_path := some print_path,
                      pending_print_copies := copies }
    match preflight with
    | .error e => (c.set_printer_error e.message, [])
    | .ok _ => (c, [.print_job_started print_path copies])

/-- The result of running one worker (and anything it spawned) to
completion: final controller state, filesystem, events, and the exception
that escaped the worker thread, if any. -/
structure WorkerResult where
  ctrl : Controller
  fs : FS
  events : List Event
  escaped : Option PyExn
deriving DecidableEq

/-- `SessionFlow._finish_session_worker`.  `compose` is the outcome of the
`render_strip(...)`/`strip.save(...)` composition inside the `try` block
(the image composer is an external collaborator); on success the strip
artifact is written at `storage.strip_path`.  Only `StripCreationError`
is caught; every other exception escapes the worker. -/
def Controller.finish_session_worker (c : Controller) (fs : FS)
    (compose : Except PyExn Unit) : WorkerResult :=
  let c1 := { c with state := ControllerState.PROCESSING }
  match compose with
  | .ok _ =>
      match c1.session_storage with
      | some storage =>
          let fs1 := fs.writeFile storage.strip_path
          let c2 := { c1 with state := ControllerState.PRINTING }
          let c3 := { c2 with session_active := false,
                              state := ControllerState.IDLE }
          ⟨c3, fs1,
            [.entered .PROCESSING, .entered .PRINTING, .entered .IDLE], none⟩
      | none =>
          ⟨c1, fs, [.entered .PROCESSING],
            some (.otherError "AttributeError: _session_storage is None")⟩
  | .error (.stripCreationError msg) =>
      let c2 := c1.set_processing_error msg
      let c3 := { c2 with session_active := false,
                          state := ControllerState.IDLE }
      ⟨c3, fs, [.entered .PROCESSING, .entered .IDLE], none⟩
  | .error e => ⟨c1, fs, [.entered .PROCESSING], some e⟩

/-- The countdown loop of `_photo_capture_worker`: decrements once per tick
until `countdown_remaining <= 0`. -/
def countdownFinal (r : Int) : Int := if r ≤ 0 then r else 0

/-- The f-string of the capture-failure branch of `_photo_capture_worker`. -/
def captureFailMessage (k : Nat) (n : Int) : String :=
  "Camera disconnected during photo " ++ toString k ++ " of " ++ toString n
    ++ ". Session was cancelled. Please start again."

/-- `SessionFlow._photo_capture_worker`.  `capture` is the outcome of the
camera capability's `capture(photos_dir)` call (any exception it raises is
caught by the worker's bare `except Exception`); `compose` is threaded to
the finish worker for the last photo. -/
def Controller.photo_capture_worker (c : Controller) (fs : FS)
    (capture : Except PyExn FsPath) (compose : Except PyExn Unit) :
    WorkerResult :=
  let c := { c with countdown_remaining := countdownFinal c.countdown_remaining }
  let c := { c with state := ControllerState.CAPTURING_PHOTO }
  -- `self._controller._session_storage.photos_dir` is evaluated inside the
  -- `try`; a missing storage raises AttributeError into the same handler.
  let captureRes : Except PyExn FsPath :=
    match c.session_storage with
    | none => .error (.otherError "AttributeError: _session_storage is None")
    | some _ => capture
  match captureRes with
  | .ok path =>
      let c := { c with captured_image_paths := c.captured_image_paths ++ [path] }
      let c := c.mark_camera_ok
      let c := { c with photos_taken := c.photos_taken + 1 }
      if (c.photos_taken : Int) < c.total_photos then
        ⟨{ c with state := ControllerState.READY_FOR_PHOTO }, fs,
          [.entered .CAPTURING_PHOTO, .entered .READY_FOR_PHOTO], none⟩
      else
        let w := c.finish_session_worker fs compose
        ⟨w.ctrl, w.fs, .entered .CAPTURING_PHOTO :: w.events, w.escaped⟩
  | .error _ =>
      let failed_photo_number := c.photos_taken + 1
      let c := c.set_camera_error .CAMERA_NOT_DETECTED
        (captureFailMessage failed_photo_number c.total_photos) .CAPTURE
      ⟨{ c with session_active := false, photos_taken := 0,
                state := ControllerState.IDLE }, fs,
        [.entered .CAPTURING_PHOTO, .entered .IDLE], none⟩

/-- Result of `SessionFlow.start_session`: `prepared = false` records that
`SessionStorage.prepare()` raised, in which case the state transition to
`READY_FOR_PHOTO` (written after the `prepare()` call) did not happen. -/
structure StartResult where
  ctrl : Controller
  fs : FS
  prepared : Bool
deriving DecidableEq

/-- `SessionFlow.start_session(payload)`: the lock-guarded body, with
`freshId` the `uuid.uuid4()` token and `today` `date.today()`. -/
def Controller.start_session (c : Controller) (payload : List (String × Int))
    (freshId : String) (today : Date) (fs : FS) : StartResult :=
  let storage : SessionStorage :=
    { root := c.sessions_root, session_id := freshId, session_date := today }
  let c1 := { c with
    session_active := true
    photos_taken := 0
    total_photos := payloadGet payload "image_count" 3
    captured_image_paths := ([] : List FsPath)
    session_storage := some storage }
  match storage.prepare fs with
  | .error _ => ⟨c1, fs, false⟩
  | .ok fs1 => ⟨{ c1 with state := ControllerState.READY_FOR_PHOTO }, fs1, true⟩

/-- `SessionFlow.begin_photo_capture`: guarded transition
`READY_FOR_PHOTO → COUNTDOWN`; the returned flag records whether the
capture worker was spawned. -/
def Controller.begin_photo_capture (c : Controller) : Controller × Bool :=
  if c.state = ControllerState.READY_FOR_PHOTO then
    ({ c with state := ControllerState.COUNTDOWN,
              countdown_remaining := c.countdown_seconds }, true)
  else (c, false)

/-- One `TAKE_PHOTO` command processed while the controller is
`READY_FOR_PHOTO`: `_handle_command` calls `begin_photo_capture`, which
spawns `_photo_capture_worker`; the worker is run to completion.  In any
other state the step is a no-op on the controller (drop / re-enqueue are
modelled by `takePhotoDispatch`). -/
def Controller.take_photo_step (c : Controller) (fs : FS)
    (capture : Except PyExn FsPath) (compose : Except PyExn Unit) :
    WorkerResult :=
  match c.begin_photo_capture with
  | (c1, true) => c1.photo_capture_worker fs capture compose
  | (_, false) => ⟨c, fs, [], none⟩

/-- A session's capture phase: one `take_photo_step` per element of
`captures`, each taken when the controller has returned to
`READY_FOR_PHOTO`. -/
def Controller.run_captures (c : Controller) (fs : FS)
    (captures : List (Except PyExn FsPath)) (compose : Except PyExn Unit) :
    WorkerResult :=
  match captures with
  | [] => ⟨c, fs, [], none⟩
  | r :: rest =>
      let w := c.take_photo_step fs r compose
      let w2 := w.ctrl.run_captures w.fs rest compose
      ⟨w2.ctrl, w2.fs, w.events ++ w2.events,
        match w.escaped with
        | some e => some e
        | none => w2.escaped⟩

/-- A whole session: `START_SESSION` dispatched, then one `TAKE_PHOTO`
per element of `captures`. -/
def Controller.run_session (c : Controller) (fs : FS)
    (payload : List (String × Int)) (freshId : String) (today : Date)
    (captures : List (Except PyExn FsPath)) (compose : Except PyExn Unit) :
    WorkerResult :=
  let s := c.start_session payload freshId today fs
  let w := s.ctrl.run_captures s.fs captures compose
  ⟨w.ctrl, w.fs,
    (if s.prepared then [Event.entered .READY_FOR_PHOTO] else []) ++ w.events,
    w.escaped⟩

/-! ## Command dispatch (`PhotoboothController._handle_command`) -/

/-- What `_handle_command` does with a dequeued `TAKE_PHOTO`. -/
inductive TakePhotoAction where
  | start_capture
  | dropped
  | reenqueued
deriving DecidableEq

/-- The `TAKE_PHOTO` branch of `_handle_command`: accepted from
`READY_FOR_PHOTO`; dropped when `COUNTDOWN` or `CAPTURING_PHOTO`
(truly busy); otherwise put back on the queue. -/
def takePhotoDispatch (s : ControllerState) : TakePhotoAction :=
  if s = ControllerState.READY_FOR_PHOTO then .start_capture
  else if s = ControllerState.COUNTDOWN ∨ s = ControllerState.CAPTURING_PHOTO
    then .dropped
  else .reenqueued

/-- Queue effect of handling one `TAKE_PHOTO` in state `s`: re-enqueue puts
the command at the back of the FIFO (`self.command_queue.put(command)`). -/
def takePhotoQueueEffect (s : ControllerState) (q : List Command)
    (cmd : Command) : List Command :=
  match takePhotoDispatch s with
  | .reenqueued => q ++ [cmd]
  | _ => q

/-- The controller loop `_run`/`_handle_command` restricted to a controller
sitting in `READY_FOR_PHOTO`: a dequeued `START_SESSION` is ignored
(state is not `IDLE`) and the loop continues; the first dequeued
`TAKE_PHOTO` calls `begin_photo_capture`, which succeeds from
`READY_FOR_PHOTO`.  Returns whether a capture was started. -/
def drainStartsCapture : List Command → Bool
  | [] => false
  | cmd :: rest =>
    match cmd.command_type with
    | .TAKE_PHOTO => true
    | .START_SESSION => drainStartsCapture rest

/-! ## Camera-health polling (`_poll_camera_health_if_idle`) -/

/-- `PhotoboothController._poll_camera_health_if_idle`: `now` is
`time.time()`, `ok` the `bool(self.camera.health_check())` outcome with
exceptions mapped to `False` by the `try`/`except`. -/
def Controller.poll_camera_health_if_idle (c : Controller) (now : ℚ)
    (ok : Bool) : Controller :=
  if c.state ≠ ControllerState.IDLE ∧
     c.state ≠ ControllerState.READY_FOR_PHOTO then c
  else if now - c.camera_poll_last_attempt < CAMERA_POLL_INTERVAL then c
  else
    let c := { c with camera_poll_last_attempt := now }
    if ok then
      ({ c with camera_poll_fail_since := none }).mark_camera_ok
    else
      match c.camera_poll_fail_since with
      | none => { c with camera_poll_fail_since := some now }
      | some since =>
        if now - since < CAMERA_ERROR_AFTER then c
        else c.set_camera_error .CAMERA_NOT_DETECTED CAMERA_NOT_DETECTED_MSG
          .CAPTURE

/-! ## Status snapshot (`PhotoboothController.get_status`) -/

/-- `PurePath.relative_to(root)`: succeeds iff `root` is a prefix of the
path (`ValueError` otherwise, which `get_status` swallows). -/
def relativeTo? (p root : FsPath) : Option FsPath :=
  if root.isPrefixOf p then some (p.drop root.length) else none

/-- `PurePath.as_posix()` of a relative path. -/
def posixJoin (p : FsPath) : String := String.intercalate "/" p

/-- The snapshot dict returned by `get_status`;
`most_recent_strip_url = none` models the key being absent. -/
structure Status where
  state : ControllerState
  busy : Bool
  photos_taken : Nat
  total_photos : Int
  print_count : Int
  countdown_remaining : Int
  most_recent_strip_url : Option String
deriving DecidableEq

/-- `PhotoboothController.get_status` against filesystem `fs` (the
`strip_path.exists() and strip_path.is_file()` check is membership in
`fs.files`; a `relative_to` failure is swallowed by the bare `except`). -/
def Controller.get_status (c : Controller) (fs : FS) : Status where
  state := c.state
  busy := decide (c.state ≠ ControllerState.IDLE) ||
          decide (c.health.source = some HealthSource.PRINTER)
  photos_taken := c.photos_taken
  total_photos := c.total_photos
  print_count := c.print_count
  countdown_remaining := c.countdown_remaining
  most_recent_strip_url :=
    match c.session_storage with
    | none => none
    | some storage =>
      if fs.hasFile storage.strip_path then
        match relativeTo? storage.strip_path c.sessions_root with
        | some rel => some ("/sessions/" ++ posixJoin rel)
        | none => none
      else none

/-! ## Substring containment, for health-message properties -/

/-- `pat in s` (Python substring containment). -/
def strContains (s pat : String) : Prop := ∃ a b, s = a ++ pat ++ b

theorem strAppend_assoc (a b c : String) : a ++ b ++ c = a ++ (b ++ c) := by
  apply String.ext
  simp [String.data_append, List.append_assoc]

/-! # Theorems for the claims -/

/-- C3.  First cause wins: every health-error setter (`_set_camera_error`,
`_set_processing_error`, `_set_printer_error`, `set_config_error`) leaves
the stored record (code, message, instructions, recoverable, source)
completely unchanged when the current level is already ERROR, and records
the new ERROR when the current level is OK, so at most one ERROR is ever
visible at a time. -/
theorem C3_first_cause_wins
    (h hok : HealthState) (code : HealthCode) (m m2 m3 m4 : String)
    (src : HealthSource) (instr : List String)
    (hErr : h.status.level = .ERROR) (hOk : hok.status.level = .OK) :
    (h.set_camera_error code m src = h ∧
     h.set_processing_error m2 = h ∧
     h.set_printer_error m3 = h ∧
     h.set_config_error m4 instr = h) ∧
    (hok.set_camera_error code m src =
       ⟨HealthStatus.error code m cameraErrorInstructions, some src⟩ ∧
     hok.set_processing_error m2 =
       ⟨HealthStatus.error .STRIP_CREATION_FAILED m2
          processingErrorInstructions false,
        some .PROCESSING⟩ ∧
     hok.set_printer_error m3 =
       ⟨HealthStatus.error .PRINTER_FAILED m3 printerErrorInstructions,
        some .PRINTER⟩ ∧
     hok.set_config_error m4 instr =
       ⟨HealthStatus.error .CONFIG_INVALID m4 instr, some .CONFIG⟩) := by
  unfold HealthState.set_camera_error HealthState.set_processing_error
    HealthState.set_printer_error HealthState.set_config_error
  simp [hErr, hOk]

/-- A health record already holding an ERROR (as `_set_camera_error`
stores it), used to instantiate hypothesis-bearing theorems. -/
def sampleCameraError : HealthState :=
  ⟨HealthStatus.error .CAMERA_NOT_DETECTED "Primary error"
     cameraErrorInstructions, some .CAPTURE⟩

/-- Witness for C3 at a concrete pre-existing error and a concrete OK
record. -/
theorem C3_first_cause_wins_witness :
    sampleCameraError.status.level = .ERROR ∧
    HealthState.init.status.level = .OK ∧
    sampleCameraError.set_printer_error "Secondary" = sampleCameraError ∧
    HealthState.init.set_printer_error "Secondary" =
      ⟨HealthStatus.error .PRINTER_FAILED "Secondary"
         printerErrorInstructions, some .PRINTER⟩ :=
  ⟨rfl, rfl,
    (C3_first_cause_wins sampleCameraError HealthState.init
      .CAMERA_NOT_DETECTED "m" "m2" "Secondary" "m4" .CAPTURE [] rfl
      rfl).1.2.2.1,
    (C3_first_cause_wins sampleCameraError HealthState.init
      .CAMERA_NOT_DETECTED "m" "m2" "Secondary" "m4" .CAPTURE [] rfl
      rfl).2.2.2.1⟩

/-- A PRINTER-owned error record, as `_set_printer_error` stores it. -/
def samplePrinterError : HealthState :=
  ⟨HealthStatus.error .PRINTER_FAILED "printer offline"
     printerErrorInstructions, some .PRINTER⟩

/-- C4 counterexample.  The claim says a successful camera probe or capture
(`_mark_camera_ok`) never clears an error owned by PRINTER (or PROCESSING):
but on a PRINTER-owned ERROR, `_mark_camera_ok` resets health to OK and
erases the source. -/
theorem C4_mark_camera_ok_clears_printer_error :
    samplePrinterError.status.level = .ERROR ∧
    samplePrinterError.source = some .PRINTER ∧
    samplePrinterError.mark_camera_ok = ⟨HealthStatus.ok, none⟩ ∧
    samplePrinterError.mark_camera_ok ≠ samplePrinterError := by
  refine ⟨rfl, rfl, rfl, ?_⟩
  decide

/-- C4 amended.  `_mark_camera_ok` leaves a CONFIG-sourced record untouched,
and clears the record to OK for every other source — including errors
owned by PRINTER or PROCESSING; the printer recovery path
(`_poll_printer_health_if_idle`) clears only a PRINTER-owned record. -/
theorem C4_mark_camera_ok_clears_only_non_config (h : HealthState) :
    (h.source = some .CONFIG → h.mark_camera_ok = h) ∧
    (h.source ≠ some .CONFIG → h.mark_camera_ok = ⟨HealthStatus.ok, none⟩) ∧
    (h.source = some .PRINTER → h.printer_recovery_clear = ⟨HealthStatus.ok, none⟩) ∧
    (h.source ≠ some .PRINTER → h.printer_recovery_clear = h) := by
  unfold HealthState.mark_camera_ok HealthState.printer_recovery_clear
  refine ⟨fun hc => ?_, fun hc => ?_, fun hc => ?_, fun hc => ?_⟩ <;>
    simp [hc]

/-- Witness for C4's amended theorem at a CONFIG record and a PRINTER
record. -/
theorem C4_mark_camera_ok_clears_only_non_config_witness :
    ((⟨HealthStatus.error .CONFIG_INVALID "cfg" [], some .CONFIG⟩ :
        HealthState).mark_camera_ok =
      ⟨HealthStatus.error .CONFIG_INVALID "cfg" [], some .CONFIG⟩) ∧
    samplePrinterError.mark_camera_ok = ⟨HealthStatus.ok, none⟩ ∧
    samplePrinterError.printer_recovery_clear = ⟨HealthStatus.ok, none⟩ :=
  ⟨(C4_mark_camera_ok_clears_only_non_config
      ⟨HealthStatus.error .CONFIG_INVALID "cfg" [], some .CONFIG⟩).1 rfl,
   (C4_mark_camera_ok_clears_only_non_config samplePrinterError).2.1
      (by decide),
   (C4_mark_camera_ok_clears_only_non_config samplePrinterError).2.2.1 rfl⟩

/-- A concrete `SessionStorage` (the layout is data-independent). -/
def storageExample : SessionStorage :=
  { root := ["r", "sessions"], session_id := "abc123",
    session_date := ⟨2025, 3, 8⟩ }

/-- The filesystem produced by `storageExample.prepare` on an empty
filesystem: the photos directory and its ancestor chain. -/
def fsAfterPrepare : FS :=
  { dirs :=
      [ ["r"], ["r", "sessions"], ["r", "sessions", "2025-03-08"],
        ["r", "sessions", "2025-03-08", "session_abc123"],
        ["r", "sessions", "2025-03-08", "session_abc123", "photos"] ],
    files := [] }

/-- C9.  Evaluation of `SessionStorage` at a concrete instance:
`photos_dir` and `strip_path` are nested under the single directory
`root/<ISO-date>/session_<id>/`, and a second `prepare()` with the same id
fails because the photos directory already exists.  But contrary to the
claim (and to `tests/controller/test_session_controller.py`, which asserts
`storage.print_path.parent == storage.session_dir`), the class derives no
print-artifact path at all: its derived paths are exactly `session_dir`,
`photos_dir` and `strip_path`, none of them ending in `print.jpg`. -/
theorem C9_session_storage_layout :
    storageExample.session_dir =
      ["r", "sessions", "2025-03-08", "session_abc123"] ∧
    storageExample.photos_dir =
      storageExample.session_dir.child "photos" ∧
    storageExample.strip_path =
      storageExample.session_dir.child "strip.jpg" ∧
    storageExample.prepare ⟨[], []⟩ = .ok fsAfterPrepare ∧
    storageExample.prepare fsAfterPrepare = .error "FileExistsError" ∧
    storageExample.derivedPaths =
      [storageExample.session_dir, storageExample.photos_dir,
       storageExample.strip_path] ∧
    (∀ p ∈ storageExample.derivedPaths, p.getLast? ≠ some "print.jpg") := by
  refine ⟨rfl, rfl, rfl, rfl, rfl, rfl, ?_⟩
  decide

/-- C5.  Evaluation of `SessionFlow.start_session` at the failing payload
`{image_count: 99, print_count: 999}` from a freshly constructed
controller: the code stores the payload's `image_count` into
`total_photos` (99, not the hard-coded `TOTAL_PHOTOS_PER_SESSION = 3`)
and never reads `print_count` (left at its constructor value 1, not
clamped to 4), contradicting the claim and the repository's own tests
(`test_start_session_ignores_image_count_payload`,
`test_start_session_clamps_print_count`).  The remaining clauses hold:
`photos_taken` reset, fresh storage allocated, photo directory created,
transition to `READY_FOR_PHOTO`. -/
theorem C5_start_session_payload_evaluation :
    ((Controller.init ["r"]).start_session
        [("image_count", 99), ("print_count", 999)] "id1" ⟨2026, 1, 2⟩
        ⟨[], []⟩).ctrl.total_photos = 99 ∧
    TOTAL_PHOTOS_PER_SESSION = 3 ∧
    ((Controller.init ["r"]).start_session
        [("image_count", 99), ("print_count", 999)] "id1" ⟨2026, 1, 2⟩
        ⟨[], []⟩).ctrl.print_count = 1 ∧
    ((Controller.init ["r"]).start_session
        [("image_count", 99), ("print_count", 999)] "id1" ⟨2026, 1, 2⟩
        ⟨[], []⟩).ctrl.photos_taken = 0 ∧
    ((Controller.init ["r"]).start_session
        [("image_count", 99), ("print_count", 999)] "id1" ⟨2026, 1, 2⟩
        ⟨[], []⟩).ctrl.session_active = true ∧
    ((Controller.init ["r"]).start_session
        [("image_count", 99), ("print_count", 999)] "id1" ⟨2026, 1, 2⟩
        ⟨[], []⟩).ctrl.session_storage =
      some ⟨["r", "sessions"], "id1", ⟨2026, 1, 2⟩⟩ ∧
    ((Controller.init ["r"]).start_session
        [("image_count", 99), ("print_count", 999)] "id1" ⟨2026, 1, 2⟩
        ⟨[], []⟩).ctrl.state = .READY_FOR_PHOTO ∧
    ((Controller.init ["r"]).start_session
        [("image_count", 99), ("print_count", 999)] "id1" ⟨2026, 1, 2⟩
        ⟨[], []⟩).fs.hasDir
      (SessionStorage.photos_dir ⟨["r", "sessions"], "id1", ⟨2026, 1, 2⟩⟩) := by
  refine ⟨?_, rfl, ?_, ?_, ?_, ?_, ?_, ?_⟩ <;> decide

/-- A controller as it stands when the finish worker is spawned after the
last capture of a session. -/
def finishingController : Controller :=
  { Controller.init ["r"] with
      state := .CAPTURING_PHOTO,
      session_active := true,
      photos_taken := 3,
      session_storage := some storageExample,
      captured_image_paths := [["p1"], ["p2"], ["p3"]] }

/-- C7.  Evaluation of `SessionFlow._finish_session_worker` at a
non-`StripCreationError` composition failure (`RuntimeError("disk full")`,
the exact scenario of the repository's own test
`test_finish_session_recovers_from_unexpected_processing_exception`):
the worker's only handler is `except StripCreationError`, so the exception
escapes the worker, the state is stranded in `PROCESSING`, the session
stays active and no PROCESSING health error is recorded — contradicting
the claim (and the test).  A `StripCreationError`, by contrast, is caught
and handled as the claim describes. -/
theorem C7_unexpected_exception_escapes_finish_worker :
    (finishingController.finish_session_worker ⟨[], []⟩
        (.error (.otherError "disk full"))).escaped =
      some (.otherError "disk full") ∧
    (finishingController.finish_session_worker ⟨[], []⟩
        (.error (.otherError "disk full"))).ctrl.state = .PROCESSING ∧
    (finishingController.finish_session_worker ⟨[], []⟩
        (.error (.otherError "disk full"))).ctrl.session_active = true ∧
    (finishingController.finish_session_worker ⟨[], []⟩
        (.error (.otherError "disk full"))).ctrl.health =
      HealthState.init ∧
    (finishingController.finish_session_worker ⟨[], []⟩
        (.error (.stripCreationError "boom"))).escaped = none ∧
    (finishingController.finish_session_worker ⟨[], []⟩
        (.error (.stripCreationError "boom"))).ctrl.state = .IDLE ∧
    (finishingController.finish_session_worker ⟨[], []⟩
        (.error (.stripCreationError "boom"))).ctrl.session_active = false ∧
    (finishingController.finish_session_worker ⟨[], []⟩
        (.error (.stripCreationError "boom"))).ctrl.health =
      ⟨HealthStatus.error .STRIP_CREATION_FAILED "boom"
         processingErrorInstructions false,
       some .PROCESSING⟩ := by
  refine ⟨?_, ?_, ?_, ?_, ?_, ?_, ?_, ?_⟩ <;> decide

lemma drainStartsCapture_of_mem (q : List Command) (cmd : Command)
    (hmem : cmd ∈ q) (htp : cmd.command_type = .TAKE_PHOTO) :
    drainStartsCapture q = true := by
  induction q with
  | nil => cases hmem
  | cons hd tl ih =>
    rcases List.mem_cons.mp hmem with rfl | hmem2
    · simp [drainStartsCapture, htp]
    · cases h : hd.command_type with
      | TAKE_PHOTO => simp [drainStartsCapture, h]
      | START_SESSION => simpa [drainStartsCapture, h] using ih hmem2

/-- C6.  `TAKE_PHOTO` dispatch: accepted (capture started) exactly from
`READY_FOR_PHOTO`; dropped when `COUNTDOWN` or `CAPTURING_PHOTO`; in every
other state re-enqueued at the back of the queue; and with the controller
sitting in `READY_FOR_PHOTO`, draining a queue that contains a
`TAKE_PHOTO` eventually starts the capture. -/
theorem C6_take_photo_dispatch (s : ControllerState) (q : List Command)
    (cmd : Command) (c : Controller)
    (hmem : cmd ∈ q) (htp : cmd.command_type = .TAKE_PHOTO) :
    takePhotoDispatch .READY_FOR_PHOTO = .start_capture ∧
    takePhotoDispatch .COUNTDOWN = .dropped ∧
    takePhotoDispatch .CAPTURING_PHOTO = .dropped ∧
    (s ≠ .READY_FOR_PHOTO → s ≠ .COUNTDOWN → s ≠ .CAPTURING_PHOTO →
      takePhotoDispatch s = .reenqueued ∧
      takePhotoQueueEffect s q cmd = q ++ [cmd]) ∧
    (c.state = .READY_FOR_PHOTO →
      c.begin_photo_capture =
        ({ c with state := .COUNTDOWN,
                  countdown_remaining := c.countdown_seconds }, true)) ∧
    drainStartsCapture q = true := by
  refine ⟨rfl, rfl, rfl, fun h1 h2 h3 => ?_, fun hr => ?_, ?_⟩
  · constructor
    · simp [takePhotoDispatch, h1, h2, h3]
    · simp [takePhotoQueueEffect, takePhotoDispatch, h1, h2, h3]
  · simp [Controller.begin_photo_capture, hr]
  · exact drainStartsCapture_of_mem q cmd hmem htp

/-- Witness for C6: a `TAKE_PHOTO` arriving in `IDLE` is re-enqueued at the
back, and a queue holding a `START_SESSION` then a `TAKE_PHOTO`, drained in
`READY_FOR_PHOTO`, starts a capture. -/
theorem C6_take_photo_dispatch_witness :
    takePhotoDispatch .IDLE = .reenqueued ∧
    takePhotoQueueEffect .IDLE [⟨.START_SESSION, []⟩, ⟨.TAKE_PHOTO, []⟩]
        ⟨.TAKE_PHOTO, []⟩ =
      [⟨.START_SESSION, []⟩, ⟨.TAKE_PHOTO, []⟩, ⟨.TAKE_PHOTO, []⟩] ∧
    drainStartsCapture [⟨.START_SESSION, []⟩, ⟨.TAKE_PHOTO, []⟩] = true :=
  ⟨((C6_take_photo_dispatch .IDLE
        [⟨.START_SESSION, []⟩, ⟨.TAKE_PHOTO, []⟩] ⟨.TAKE_PHOTO, []⟩
        (Controller.init ["r"]) (by decide) rfl).2.2.2.1
      (by decide) (by decide) (by decide)).1,
   ((C6_take_photo_dispatch .IDLE
        [⟨.START_SESSION, []⟩, ⟨.TAKE_PHOTO, []⟩] ⟨.TAKE_PHOTO, []⟩
        (Controller.init ["r"]) (by decide) rfl).2.2.2.1
      (by decide) (by decide) (by decide)).2,
   (C6_take_photo_dispatch .IDLE
        [⟨.START_SESSION, []⟩, ⟨.TAKE_PHOTO, []⟩] ⟨.TAKE_PHOTO, []⟩
        (Controller.init ["r"]) (by decide) rfl).2.2.2.2.2⟩

lemma FS.hasFile_writeFile_self (fs : FS) (p : FsPath) :
    (fs.writeFile p).hasFile p := by
  unfold FS.writeFile FS.hasFile
  split
  · assumption
  · exact List.mem_cons_self _ _

lemma FS.mem_writeFile_files (fs : FS) (p q : FsPath) :
    q ∈ (fs.writeFile p).files ↔ q = p ∨ q ∈ fs.files := by
  unfold FS.writeFile
  split
  · rename_i hp
    constructor
    · exact fun h => Or.inr h
    · rintro (rfl | h)
      · exact hp
      · exact h
  · simp [List.mem_cons]

/-- C10.  `get_status` carries `most_recent_strip_url` exactly when a
session storage exists and its strip file exists as a regular file under
the sessions root; a successful finish leaves the storage (and hence the
URL) in place with the controller back in `IDLE`, and only a new
`start_session` replaces the storage. -/
theorem C10_most_recent_strip_url (c : Controller) (fs fs2 fs3 : FS)
    (storage : SessionStorage) (payload : List (String × Int))
    (freshId : String) (today : Date)
    (hstor : c.session_storage = some storage) :
    ((c.get_status fs).most_recent_strip_url ≠ none ↔
      ∃ s, c.session_storage = some s ∧ fs.hasFile s.strip_path ∧
        c.sessions_root.isPrefixOf s.strip_path = true) ∧
    ((c.finish_session_worker fs2 (.ok ())).ctrl.session_storage =
        some storage ∧
     (c.finish_session_worker fs2 (.ok ())).ctrl.state = .IDLE ∧
     (c.finish_session_worker fs2 (.ok ())).ctrl.session_active = false ∧
     (c.finish_session_worker fs2 (.ok ())).fs.hasFile storage.strip_path) ∧
    (c.start_session payload freshId today fs3).ctrl.session_storage =
      some ⟨c.sessions_root, freshId, today⟩ := by
  refine ⟨?_, ?_, ?_⟩
  · by_cases hf : fs.hasFile storage.strip_path
    · by_cases hp : c.sessions_root <+: storage.strip_path
      · simp [Controller.get_status, relativeTo?, hstor, hf, hp,
          List.isPrefixOf_iff_prefix]
      · simp [Controller.get_status, relativeTo?, hstor, hf, hp,
          List.isPrefixOf_iff_prefix]
    · simp [Controller.get_status, relativeTo?, hstor, hf]
  · refine ⟨?_, ?_, ?_, ?_⟩ <;>
      simp [Controller.finish_session_worker, hstor,
        FS.hasFile_writeFile_self]
  · simp only [Controller.start_session]
    split <;> rfl

/-- Witness for C10 at a controller holding `storageExample` with the strip
file on disk under the sessions root. -/
theorem C10_most_recent_strip_url_witness :
    ((({ Controller.init ["r"] with
          session_storage := some storageExample } : Controller).get_status
        ⟨[], [storageExample.strip_path]⟩).most_recent_strip_url ≠ none) ∧
    (({ Controller.init ["r"] with
          session_storage := some storageExample } :
            Controller).finish_session_worker ⟨[], []⟩
        (.ok ())).ctrl.state = .IDLE :=
  ⟨(C10_most_recent_strip_url _ ⟨[], [storageExample.strip_path]⟩ ⟨[], []⟩
      ⟨[], []⟩ storageExample [] "id2" ⟨2026, 1, 3⟩ rfl).1.mpr
    ⟨storageExample, rfl, by decide, by decide⟩,
   (C10_most_recent_strip_url _ ⟨[], [storageExample.strip_path]⟩ ⟨[], []⟩
      ⟨[], []⟩ storageExample [] "id2" ⟨2026, 1, 3⟩ rfl).2.1.2.1⟩

/-- C8.  Camera-health debounce, for any two consecutive probes at times
`t0 < t1` that pass the poll-interval guard, starting with no pending
failure: a failed probe followed by a successful one never surfaces an
ERROR (the first failure only starts the failure timer); two failed probes
spanning at least `CAMERA_ERROR_AFTER` surface a CAPTURE-sourced ERROR;
and a success resets the failure timer. -/
theorem C8_camera_health_debounce (c : Controller) (t0 t1 : ℚ)
    (hstate : c.state = .IDLE)
    (hhealth : c.health = HealthState.init)
    (hfail : c.camera_poll_fail_since = none)
    (ht0 : CAMERA_POLL_INTERVAL ≤ t0 - c.camera_poll_last_attempt)
    (ht1 : CAMERA_POLL_INTERVAL ≤ t1 - t0) :
    ((c.poll_camera_health_if_idle t0 false).health = HealthState.init ∧
     ((c.poll_camera_health_if_idle t0 false).poll_camera_health_if_idle
        t1 true).health = HealthState.init) ∧
    (CAMERA_ERROR_AFTER ≤ t1 - t0 →
      ((c.poll_camera_health_if_idle t0 false).poll_camera_health_if_idle
          t1 false).health =
        ⟨HealthStatus.error .CAMERA_NOT_DETECTED CAMERA_NOT_DETECTED_MSG
           cameraErrorInstructions, some .CAPTURE⟩) ∧
    ((c.poll_camera_health_if_idle t0 false).poll_camera_health_if_idle
        t1 true).camera_poll_fail_since = none := by
  have hA : ¬(c.state ≠ ControllerState.IDLE ∧
      c.state ≠ ControllerState.READY_FOR_PHOTO) := by simp [hstate]
  have hB0 : ¬(t0 - c.camera_poll_last_attempt < CAMERA_POLL_INTERVAL) :=
    not_lt.mpr ht0
  have hB1 : ¬(t1 - t0 < CAMERA_POLL_INTERVAL) := not_lt.mpr ht1
  refine ⟨⟨?_, ?_⟩, fun hw => ?_, ?_⟩
  · simp [Controller.poll_camera_health_if_idle, hA, hB0, hfail, hhealth]
  · simp [Controller.poll_camera_health_if_idle, Controller.mark_camera_ok,
      hA, hB0, hB1, hfail, hstate, hhealth, HealthState.init]
  · have hC : ¬(t1 - t0 < CAMERA_ERROR_AFTER) := not_lt.mpr hw
    simp [Controller.poll_camera_health_if_idle, Controller.set_camera_error,
      HealthState.set_camera_error, hA, hB0, hB1, hC, hfail, hstate, hhealth,
      HealthState.init, HealthStatus.ok]
  · simp [Controller.poll_camera_health_if_idle, Controller.mark_camera_ok,
      hA, hB0, hB1, hfail, hstate, hhealth, HealthState.init]

/-- Witness for C8 from a freshly constructed controller, probes at
`t0 = 1` and `t1 = 4` (spanning the 2.5 s window). -/
theorem C8_camera_health_debounce_witness :
    (((Controller.init ["r"]).poll_camera_health_if_idle 1
        false).poll_camera_health_if_idle 4 true).health =
      HealthState.init ∧
    (((Controller.init ["r"]).poll_camera_health_if_idle 1
        false).poll_camera_health_if_idle 4 false).health =
      ⟨HealthStatus.error .CAMERA_NOT_DETECTED CAMERA_NOT_DETECTED_MSG
         cameraErrorInstructions, some .CAPTURE⟩ :=
  ⟨(C8_camera_health_debounce (Controller.init ["r"]) 1 4 rfl rfl rfl
      (by norm_num [CAMERA_POLL_INTERVAL, Controller.init])
      (by norm_num [CAMERA_POLL_INTERVAL])).1.2,
   (C8_camera_health_debounce (Controller.init ["r"]) 1 4 rfl rfl rfl
      (by norm_num [CAMERA_POLL_INTERVAL, Controller.init])
      (by norm_num [CAMERA_POLL_INTERVAL])).2.1
      (by norm_num [CAMERA_ERROR_AFTER])⟩

lemma captureFailMessage_contains_index (k : Nat) (n : Int) :
    strContains (captureFailMessage k n)
      ("photo " ++ toString k ++ " of " ++ toString n) := by
  refine ⟨"Camera disconnected during ",
    ". Session was cancelled. Please start again.", ?_⟩
  unfold captureFailMessage
  apply String.ext
  simp [String.data_append, List.append_assoc]

lemma captureFailMessage_contains_cancelled (k : Nat) (n : Int) :
    strContains (captureFailMessage k n) "Session was cancelled" := by
  refine ⟨"Camera disconnected during photo " ++ toString k ++ " of "
      ++ toString n ++ ". ", ". Please start again.", ?_⟩
  unfold captureFailMessage
  apply String.ext
  simp [String.data_append, List.append_assoc]

lemma run_captures_nil (c : Controller) (fs : FS)
    (compose : Except PyExn Unit) :
    c.run_captures fs [] compose = ⟨c, fs, [], none⟩ := rfl

lemma run_captures_cons (c : Controller) (fs : FS) (r : Except PyExn FsPath)
    (rest : List (Except PyExn FsPath)) (compose : Except PyExn Unit) :
    c.run_captures fs (r :: rest) compose =
      ⟨((c.take_photo_step fs r compose).ctrl.run_captures
          (c.take_photo_step fs r compose).fs rest compose).ctrl,
       ((c.take_photo_step fs r compose).ctrl.run_captures
          (c.take_photo_step fs r compose).fs rest compose).fs,
       (c.take_photo_step fs r compose).events ++
         ((c.take_photo_step fs r compose).ctrl.run_captures
            (c.take_photo_step fs r compose).fs rest compose).events,
       (match (c.take_photo_step fs r compose).escaped with
        | some ex => some ex
        | none => ((c.take_photo_step fs r compose).ctrl.run_captures
            (c.take_photo_step fs r compose).fs rest compose).escaped)⟩ := rfl

/-- One successful mid-session capture (more photos remain): the worker
appends the capture, marks the camera OK, increments the counter and
returns to `READY_FOR_PHOTO`. -/
lemma take_photo_step_success_mid (c : Controller) (fs : FS) (p : FsPath)
    (compose : Except PyExn Unit) (s : SessionStorage)
    (hstate : c.state = .READY_FOR_PHOTO)
    (hstor : c.session_storage = some s)
    (hhealth : c.health = HealthState.init)
    (hlt : ((c.photos_taken + 1 : Nat) : Int) < c.total_photos) :
    c.take_photo_step fs (.ok p) compose =
      ⟨{ c with
          state := .READY_FOR_PHOTO,
          countdown_remaining := countdownFinal c.countdown_seconds,
          captured_image_paths := c.captured_image_paths ++ [p],
          photos_taken := c.photos_taken + 1,
          health := HealthState.init,
          camera_poll_last_attempt := 0,
          camera_poll_fail_since := none }, fs,
        [.entered .CAPTURING_PHOTO, .entered .READY_FOR_PHOTO], none⟩ := by
  unfold Controller.take_photo_step Controller.begin_photo_capture
    Controller.photo_capture_worker Controller.mark_camera_ok
  rw [if_pos hstate]
  simp [hstor, hhealth, HealthState.init, hlt]
  intro hge
  exfalso
  push_cast at hlt hge
  omega

/-- A failed capture: the worker records the CAPTURE error with the
1-based index and total in the message, resets the counter, deactivates
the session and returns to `IDLE`. -/
lemma take_photo_step_failure (c : Controller) (fs : FS) (e : PyExn)
    (compose : Except PyExn Unit) (s : SessionStorage)
    (hstate : c.state = .READY_FOR_PHOTO)
    (hstor : c.session_storage = some s)
    (hhealth : c.health = HealthState.init) :
    c.take_photo_step fs (.error e) compose =
      ⟨{ c with
          state := .IDLE,
          countdown_remaining := countdownFinal c.countdown_seconds,
          session_active := false,
          photos_taken := 0,
          health := ⟨HealthStatus.error .CAMERA_NOT_DETECTED
            (captureFailMessage (c.photos_taken + 1) c.total_photos)
            cameraErrorInstructions, some .CAPTURE⟩ }, fs,
        [.entered .CAPTURING_PHOTO, .entered .IDLE], none⟩ := by
  unfold Controller.take_photo_step Controller.begin_photo_capture
    Controller.photo_capture_worker Controller.set_camera_error
    HealthState.set_camera_error
  rw [if_pos hstate]
  simp [hstor, hhealth, HealthState.init, HealthStatus.ok]

/-- The capture phase of a session whose first `okpaths.length` captures
succeed and whose next capture raises, run from `READY_FOR_PHOTO` with
healthy status: the whole session aborts as `_photo_capture_worker`'s
failure branch dictates, with no composition and no print job. -/
lemma run_captures_fail_aux (okpaths : List FsPath) (e : PyExn)
    (compose : Except PyExn Unit) (c : Controller) (fs : FS)
    (s : SessionStorage)
    (hstate : c.state = .READY_FOR_PHOTO)
    (hstor : c.session_storage = some s)
    (hhealth : c.health = HealthState.init)
    (hcount : (c.photos_taken : Int) + okpaths.length + 1 ≤ c.total_photos) :
    ∀ w, w = c.run_captures fs (okpaths.map .ok ++ [.error e]) compose →
      w.ctrl.photos_taken = 0 ∧
      w.ctrl.session_active = false ∧
      w.ctrl.state = .IDLE ∧
      w.ctrl.health = ⟨HealthStatus.error .CAMERA_NOT_DETECTED
          (captureFailMessage (c.photos_taken + okpaths.length + 1)
             c.total_photos) cameraErrorInstructions, some .CAPTURE⟩ ∧
      w.fs = fs ∧
      w.escaped = none ∧
      Event.entered .PROCESSING ∉ w.events ∧
      (∀ q k, Event.print_job_started q k ∉ w.events) := by
  induction okpaths generalizing c fs with
  | nil =>
    intro w hw
    simp only [List.map_nil, List.nil_append] at hw
    rw [run_captures_cons,
      take_photo_step_failure c fs e compose s hstate hstor hhealth] at hw
    dsimp only at hw
    rw [run_captures_nil] at hw
    dsimp only at hw
    simp only [List.append_nil] at hw
    subst hw
    refine ⟨rfl, rfl, rfl, by simp, rfl, rfl, by simp, ?_⟩
    intro q k h
    simp at h
  | cons p rest ih =>
    intro w hw
    have hlt : ((c.photos_taken + 1 : Nat) : Int) < c.total_photos := by
      simp only [List.length_cons] at hcount
      push_cast at hcount ⊢
      omega
    simp only [List.map_cons, List.cons_append] at hw
    rw [run_captures_cons,
      take_photo_step_success_mid c fs p compose s hstate hstor hhealth
        hlt] at hw
    dsimp only at hw
    set c1 : Controller :=
      { c with
          state := .READY_FOR_PHOTO,
          countdown_remaining := countdownFinal c.countdown_seconds,
          captured_image_paths := c.captured_image_paths ++ [p],
          photos_taken := c.photos_taken + 1,
          health := HealthState.init,
          camera_poll_last_attempt := 0,
          camera_poll_fail_since := none } with hc1
    have hcount1 : (c1.photos_taken : Int) + rest.length + 1
        ≤ c1.total_photos := by
      rw [hc1]
      simp only [List.length_cons] at hcount
      push_cast at hcount ⊢
      omega
    obtain ⟨h1, h2, h3, h4, h5, h6, h7, h8⟩ :=
      ih c1 fs (by rw [hc1]) hstor (by rw [hc1]) hcount1
        (c1.run_captures fs (rest.map .ok ++ [.error e]) compose) rfl
    subst hw
    refine ⟨h1, h2, h3, ?_, h5, h6, ?_, ?_⟩
    · rw [h4]
      have hk : c1.photos_taken = c.photos_taken + 1 := by rw [hc1]
      have harith : c.photos_taken + 1 + rest.length + 1
          = c.photos_taken + (p :: rest).length + 1 := by
        simp only [List.length_cons]
        omega
      rw [hk, harith]
    · intro hmem
      rcases List.mem_append.mp hmem with h | h
      · simp at h
      · exact h7 h
    · intro q k hmem
      rcases List.mem_append.mp hmem with h | h
      · simp at h
      · exact h8 q k h

/-- `start_session` when the fresh photos directory does not yet exist:
`prepare()` succeeds and the state reaches `READY_FOR_PHOTO`. -/
lemma start_session_ok (c : Controller) (payload : List (String × Int))
    (freshId : String) (today : Date) (fs : FS)
    (hfresh :
      SessionStorage.photos_dir ⟨c.sessions_root, freshId, today⟩ ∉ fs.dirs ∧
      SessionStorage.photos_dir ⟨c.sessions_root, freshId, today⟩ ∉ fs.files) :
    c.start_session payload freshId today fs =
      ⟨{ c with
          session_active := true,
          photos_taken := 0,
          total_photos := payloadGet payload "image_count" 3,
          captured_image_paths := [],
          session_storage := some ⟨c.sessions_root, freshId, today⟩,
          state := .READY_FOR_PHOTO },
       { fs with dirs :=
          (SessionStorage.photos_dir
            ⟨c.sessions_root, freshId, today⟩).ancestors ++ fs.dirs },
       true⟩ := by
  have hprep : (⟨c.sessions_root, freshId, today⟩ : SessionStorage).prepare
      fs = .ok ⟨(SessionStorage.photos_dir
        ⟨c.sessions_root, freshId, today⟩).ancestors ++ fs.dirs,
        fs.files⟩ := by
    unfold SessionStorage.prepare FS.mkdirParents
    rw [if_neg (not_or.mpr ⟨hfresh.1, hfresh.2⟩)]
  simp only [Controller.start_session, hprep]

/-- C2.  For every session in which the first `okpaths.length` captures
succeed and the next capture raises (photo `K = okpaths.length + 1` of
`N = total_photos`, with `K ≤ N`), the capture worker leaves
`photos_taken = 0`, `session_active = false`, state `IDLE`, and a
CAPTURE-sourced health ERROR whose message contains "photo K of N" and
"Session was cancelled"; the filesystem gains no files — no strip or
print artifact is ever composed — and no composition or print-job event
occurs. -/
theorem C2_capture_failure_aborts_session
    (c0 : Controller) (fs0 : FS) (payload : List (String × Int))
    (freshId : String) (today : Date) (okpaths : List FsPath) (e : PyExn)
    (compose : Except PyExn Unit)
    (hhealth : c0.health = HealthState.init)
    (hfresh :
      SessionStorage.photos_dir ⟨c0.sessions_root, freshId, today⟩
        ∉ fs0.dirs ∧
      SessionStorage.photos_dir ⟨c0.sessions_root, freshId, today⟩
        ∉ fs0.files)
    (hcount : (okpaths.length : Int) + 1
        ≤ payloadGet payload "image_count" 3) :
    ∀ w, w = c0.run_session fs0 payload freshId today
        (okpaths.map .ok ++ [.error e]) compose →
      w.ctrl.photos_taken = 0 ∧
      w.ctrl.session_active = false ∧
      w.ctrl.state = .IDLE ∧
      w.ctrl.health.source = some .CAPTURE ∧
      w.ctrl.health.status.level = .ERROR ∧
      (∃ m, w.ctrl.health.status.message = some m ∧
        strContains m ("photo " ++ toString (okpaths.length + 1) ++ " of "
          ++ toString (payloadGet payload "image_count" 3)) ∧
        strContains m "Session was cancelled") ∧
      w.fs.files = fs0.files ∧
      w.escaped = none ∧
      Event.entered .PROCESSING ∉ w.events ∧
      (∀ q k, Event.print_job_started q k ∉ w.events) := by
  intro w hw
  unfold Controller.run_session at hw
  rw [start_session_ok c0 payload freshId today fs0 hfresh] at hw
  dsimp only at hw
  simp only [eq_self_iff_true, if_true] at hw
  obtain ⟨h1, h2, h3, h4, h5, h6, h7, h8⟩ :=
    run_captures_fail_aux okpaths e compose
      { c0 with
          session_active := true,
          photos_taken := 0,
          total_photos := payloadGet payload "image_count" 3,
          captured_image_paths := [],
          session_storage := some ⟨c0.sessions_root, freshId, today⟩,
          state := .READY_FOR_PHOTO }
      { fs0 with dirs :=
          (SessionStorage.photos_dir
            ⟨c0.sessions_root, freshId, today⟩).ancestors ++ fs0.dirs }
      ⟨c0.sessions_root, freshId, today⟩ rfl rfl hhealth
      (by simpa using hcount) _ rfl
  dsimp only at h4
  simp only [Nat.zero_add] at h4
  subst hw
  dsimp only
  refine ⟨h1, h2, h3, by rw [h4], by rw [h4]; rfl, ?_, by rw [h5], h6,
    ?_, ?_⟩
  · refine ⟨captureFailMessage (okpaths.length + 1)
        (payloadGet payload "image_count" 3), by rw [h4]; rfl, ?_, ?_⟩
    · exact captureFailMessage_contains_index _ _
    · exact captureFailMessage_contains_cancelled _ _
  · intro hmem
    rcases List.mem_append.mp hmem with h | h
    · simp at h
    · exact h7 h
  · intro q k hmem
    rcases List.mem_append.mp hmem with h | h
    · simp at h
    · exact h8 q k h

/-- Witness for C2: a fresh controller, default payload (3 photos), one
successful capture then a raising capture (photo 2 of 3). -/
theorem C2_capture_failure_aborts_session_witness :
    ((Controller.init ["r"]).run_session ⟨[], []⟩ [] "sid" ⟨2026, 1, 2⟩
        [.ok ["p1.jpg"], .error (.otherError "Camera not connected")]
        (.ok ())).ctrl.photos_taken = 0 ∧
    ((Controller.init ["r"]).run_session ⟨[], []⟩ [] "sid" ⟨2026, 1, 2⟩
        [.ok ["p1.jpg"], .error (.otherError "Camera not connected")]
        (.ok ())).ctrl.state = .IDLE ∧
    ((Controller.init ["r"]).run_session ⟨[], []⟩ [] "sid" ⟨2026, 1, 2⟩
        [.ok ["p1.jpg"], .error (.otherError "Camera not connected")]
        (.ok ())).ctrl.health.source = some .CAPTURE :=
  ⟨(C2_capture_failure_aborts_session (Controller.init ["r"]) ⟨[], []⟩ []
      "sid" ⟨2026, 1, 2⟩ [["p1.jpg"]] (.otherError "Camera not connected")
      (.ok ()) rfl ⟨by decide, by decide⟩ (by decide) _ rfl).1,
   (C2_capture_failure_aborts_session (Controller.init ["r"]) ⟨[], []⟩ []
      "sid" ⟨2026, 1, 2⟩ [["p1.jpg"]] (.otherError "Camera not connected")
      (.ok ()) rfl ⟨by decide, by decide⟩ (by decide) _ rfl).2.2.1,
   (C2_capture_failure_aborts_session (Controller.init ["r"]) ⟨[], []⟩ []
      "sid" ⟨2026, 1, 2⟩ [["p1.jpg"]] (.otherError "Camera not connected")
      (.ok ()) rfl ⟨by decide, by decide⟩ (by decide) _ rfl).2.2.2.1⟩

/-- A complete successful session: `START_SESSION` with empty payload
(3 photos) followed by three successful captures, composition
succeeding. -/
def fullSessionRun : WorkerResult :=
  (Controller.init ["r"]).run_session ⟨[], []⟩ [] "sid" ⟨2026, 1, 2⟩
    [.ok ["a.jpg"], .ok ["b.jpg"], .ok ["c.jpg"]] (.ok ())

/-- C1.  Evaluation of a full successful session: the controller ends in
`IDLE` with `session_active = false` and the finish worker composes the
strip artifact at the session's fixed path, transitioning through
`PRINTING` — but the only file ever created is `strip.jpg`: contrary to
the claim (and to the repository's own tests
`test_finish_session_saves_strip` and
`test_finish_session_starts_print_job_with_correct_copies`), no print
artifact is composed and no print job is ever handed to
`_start_print_job` (the run's event trace holds no `print_job_started`
event). -/
theorem C1_finish_worker_composes_only_strip :
    fullSessionRun.ctrl.state = .IDLE ∧
    fullSessionRun.ctrl.session_active = false ∧
    fullSessionRun.ctrl.photos_taken = 3 ∧
    fullSessionRun.escaped = none ∧
    fullSessionRun.fs.files =
      [SessionStorage.strip_path ⟨["r", "sessions"], "sid", ⟨2026, 1, 2⟩⟩] ∧
    fullSessionRun.events =
      [.entered .READY_FOR_PHOTO,
       .entered .CAPTURING_PHOTO, .entered .READY_FOR_PHOTO,
       .entered .CAPTURING_PHOTO, .entered .READY_FOR_PHOTO,
       .entered .CAPTURING_PHOTO, .entered .PROCESSING,
       .entered .PRINTING, .entered .IDLE] ∧
    Event.entered .PRINTING ∈ fullSessionRun.events ∧
    fullSessionRun.events.all
      (fun ev => match ev with
        | .print_job_started _ _ => false
        | _ => true) = true := by
  refine ⟨rfl, rfl, rfl, rfl, ?_, ?_, ?_, ?_⟩ <;> decide

end Photobooth
